import Mathlib

/-!
Verification of the provider-detection and credential-dispatch core of
fluxcd-pkg (`oci/auth/login/login.go`): the `ImageRegistryProvider`
classifier and the `Manager` login façade are embedded shallowly and the
specified properties are proved against the embedding.

External collaborators (the provider-specific credential clients, the
image-reference parser) are modelled as opaque-behaviour records holding
their login functions, exactly as the Manager consumes them.
-/

/-- Embedding of `oci.Provider`, the enumerated provider tag returned by
the classifier (`ProviderGeneric`, `ProviderAWS`, `ProviderGCP`,
`ProviderAzure`). -/
inductive Provider where
  | generic
  | aws
  | gcp
  | azure
deriving DecidableEq, Repr

/-- Embedding of the external parsed image reference
(`name.Reference` from go-containerregistry): an immutable structured
value exposing a registry host plus repository and tag/digest components.
Only the registry host is consulted by the code under verification. -/
structure Reference where
  registry : String
  repository : String
  identifier : String
deriving DecidableEq, Repr

/-- Embedding of `ref.Context().RegistryStr()`: the registry host string
of a parsed reference. -/
def Reference.RegistryStr (r : Reference) : String :=
  r.registry

/-- Embedding of `context.Context`: an opaque cancellation/deadline
token, passed through unchanged. -/
structure Ctx where
  id : Nat
deriving DecidableEq, Repr

/-- Embedding of `authn.Authenticator`: opaque credential material. -/
structure Authenticator where
  material : String
deriving DecidableEq, Repr

/-- Embedding of a Go `error` value. -/
structure Err where
  msg : String
deriving DecidableEq, Repr

/-- Result of a Go `(authn.Authenticator, error)` pair: either component
may be nil, modelled with `Option`. -/
abbrev LoginResult := Option Authenticator × Option Err

/-- Helper splitting a character list at every occurrence of a
separator character (the pieces carry no separator). -/
def splitOnChar (c : Char) : List Char → List (List Char)
  | [] => [[]]
  | x :: xs =>
    let r := splitOnChar c xs
    if x == c then [] :: r
    else
      match r with
      | [] => [[x]]
      | y :: ys => (x :: y) :: ys

/-- Helper testing whether a string ends with a given suffix, computed
structurally over the character lists. -/
def strEndsWith (s suf : String) : Bool :=
  List.isSuffixOf suf.toList s.toList

namespace aws

/-- Modelled from the spec: `aws.ParseImage`'s host pattern is not under
`src/`; the spec describes it as "a pattern recognizing
account-id/region-encoded ECR hostnames". A host matches when its
dot-separated labels have the shape
`accountId.dkr.ecr.region.amazonaws.com` with a non-empty numeric
account id and a non-empty region. -/
def isEcrRegistry (host : List Char) : Bool :=
  match splitOnChar '.' host with
  | [acct, d, e, region, amz, com] =>
    !acct.isEmpty && acct.all Char.isDigit &&
    d == "dkr".toList && e == "ecr".toList && !region.isEmpty &&
    amz == "amazonaws".toList && com == "com".toList
  | _ => false

/-- Modelled from the spec: the success test of `aws.ParseImage` (not
under `src/`), which recognizes "account-id/region-encoded ECR hostnames,
optionally embedded in a pull-through-cache path": some slash-separated
component of the image string is an ECR registry host. -/
def ParseImageOk (image : String) : Bool :=
  (splitOnChar '/' image.toList).any isEcrRegistry

/-- Embedding of `*aws.Client`, the external ECR credential client: a
handle around its login operation
`Login(ctx, autoLogin bool, image string)`. -/
structure Client where
  login : Ctx → Bool → String → LoginResult

/-- Modelled from the spec: `aws.NewClient` (not under `src/`) builds the
standard default ECR client; its credential-fetching behaviour is an
external collaborator outside this core, represented by a fixed
function. -/
def NewClient : Client :=
  ⟨fun _ _ _ => (none, some ⟨"ecr default client"⟩)⟩

end aws

namespace gcp

/-- Modelled from the spec: `gcp.ValidHost` is not under `src/`; the spec
describes "the known GCP registry host suffix set (e.g. `gcr.io`,
`*.pkg.dev` regional Artifact Registry hosts)". -/
def ValidHost (host : String) : Bool :=
  host == "gcr.io" || strEndsWith host ".gcr.io" || strEndsWith host ".pkg.dev"

/-- Embedding of `*gcp.Client`, the external GCR/Artifact-Registry
credential client: a handle around its login operation
`Login(ctx, autoLogin bool, image string, ref name.Reference)`. -/
structure Client where
  login : Ctx → Bool → String → Reference → LoginResult

/-- Modelled from the spec: `gcp.NewClient` (not under `src/`) builds the
standard default GCR client; its credential-fetching behaviour is
external to this core, represented by a fixed function. -/
def NewClient : Client :=
  ⟨fun _ _ _ _ => (none, some ⟨"gcr default client"⟩)⟩

end gcp

namespace azure

/-- Modelled from the spec: `azure.ValidHost` is not under `src/`; the
spec describes "the known Azure Container Registry host suffix
(e.g. `*.azurecr.io`)". -/
def ValidHost (host : String) : Bool :=
  strEndsWith host ".azurecr.io"

/-- Embedding of `*azure.Client`, the external ACR credential client: a
handle around its login operation
`Login(ctx, autoLogin bool, image string, ref name.Reference)`. -/
structure Client where
  login : Ctx → Bool → String → Reference → LoginResult

/-- Modelled from the spec: `azure.NewClient` (not under `src/`) builds
the standard default ACR client; its credential-fetching behaviour is
external to this core, represented by a fixed function. -/
def NewClient : Client :=
  ⟨fun _ _ _ _ => (none, some ⟨"acr default client"⟩)⟩

end azure

/-- Embedding of `ImageRegistryProvider` from `login.go`: classify the
image/reference pair, checking the AWS ECR pattern first, then the GCP
host suffixes, then the Azure host suffix, defaulting to Generic. -/
def ImageRegistryProvider (image : String) (ref : Reference) : Provider :=
  if aws.ParseImageOk image then
    Provider.aws
  else if gcp.ValidHost ref.RegistryStr then
    Provider.gcp
  else if azure.ValidHost ref.RegistryStr then
    Provider.azure
  else
    Provider.generic

/-- Embedding of `ProviderOptions` from `login.go`: one independent
auto-login boolean per cloud provider. -/
structure ProviderOptions where
  AwsAutoLogin : Bool
  GcpAutoLogin : Bool
  AzureAutoLogin : Bool
deriving DecidableEq, Repr

/-- Embedding of `Manager` from `login.go`: one credential-client handle
per provider. Each Go field is a pointer (`*aws.Client` etc.) that may be
nil, modelled with `Option`. -/
structure Manager where
  ecr : Option aws.Client
  gcr : Option gcp.Client
  acr : Option azure.Client

/-- Embedding of `NewManager` from `login.go`: a Manager wired with the
three default clients. -/
def NewManager : Manager :=
  ⟨some aws.NewClient, some gcp.NewClient, some azure.NewClient⟩

/-- Embedding of `Manager.WithECRClient` from `login.go`: override the
ECR client handle, returning the updated Manager for chaining. -/
def Manager.WithECRClient (m : Manager) (c : Option aws.Client) : Manager :=
  { m with ecr := c }

/-- Embedding of `Manager.WithGCRClient` from `login.go`: override the
GCR client handle, returning the updated Manager for chaining. -/
def Manager.WithGCRClient (m : Manager) (c : Option gcp.Client) : Manager :=
  { m with gcr := c }

/-- Embedding of `Manager.WithACRClient` from `login.go`: override the
ACR client handle, returning the updated Manager for chaining. -/
def Manager.WithACRClient (m : Manager) (c : Option azure.Client) : Manager :=
  { m with acr := c }

/-- Embedding of `Manager.Login` from `login.go`: classify, then dispatch
to the matching client. Dereferencing a nil client handle is a Go runtime
panic, modelled as `none`; a completed call returns `some` of the
`(authenticator, error)` pair. The Go `switch` has no Generic case, so a
Generic classification falls through to `return nil, nil`. -/
def Manager.Login (m : Manager) (ctx : Ctx) (image : String) (ref : Reference)
    (opts : ProviderOptions) : Option LoginResult :=
  match ImageRegistryProvider image ref with
  | Provider.aws =>
    match m.ecr with
    | some c => some (c.login ctx opts.AwsAutoLogin image)
    | none => none
  | Provider.gcp =>
    match m.gcr with
    | some c => some (c.login ctx opts.GcpAutoLogin image ref)
    | none => none
  | Provider.azure =>
    match m.acr with
    | some c => some (c.login ctx opts.AzureAutoLogin image ref)
    | none => none
  | Provider.generic => some (none, none)

/-! Concrete values used by the witness theorems. -/

/-- Test ECR client recording its inputs in the authenticator. -/
def testEcrClient : aws.Client :=
  ⟨fun ctx auto image =>
    (some ⟨"ecr " ++ toString ctx.id ++ " " ++ toString auto ++ " " ++ image⟩, none)⟩

/-- Test GCR client recording its inputs in the authenticator. -/
def testGcrClient : gcp.Client :=
  ⟨fun ctx auto image ref =>
    (some ⟨"gcr " ++ toString ctx.id ++ " " ++ toString auto ++ " " ++ image
      ++ " " ++ ref.registry⟩, none)⟩

/-- Test ACR client recording its inputs in the authenticator. -/
def testAcrClient : azure.Client :=
  ⟨fun ctx auto image ref =>
    (some ⟨"acr " ++ toString ctx.id ++ " " ++ toString auto ++ " " ++ image
      ++ " " ++ ref.registry⟩, none)⟩

/-- Test ECR image string from the specification. -/
def awsImg : String := "123456789012.dkr.ecr.us-west-2.amazonaws.com/my-repo:v1"

/-- Test reference for the ECR image string. -/
def awsRef : Reference :=
  ⟨"123456789012.dkr.ecr.us-west-2.amazonaws.com", "my-repo", "v1"⟩

/-- Test GCR image string from the specification. -/
def gcpImg : String := "gcr.io/my-project/my-repo"

/-- Test reference for the GCR image string. -/
def gcpRef : Reference := ⟨"gcr.io", "my-project/my-repo", "latest"⟩

/-- Test ACR image string from the specification. -/
def azImg : String := "myregistry.azurecr.io/my-repo"

/-- Test reference for the ACR image string. -/
def azRef : Reference := ⟨"myregistry.azurecr.io", "my-repo", "latest"⟩

/-- Test generic image string from the specification. -/
def genImg : String := "docker.io/library/nginx"

/-- Test reference for the generic image string. -/
def genRef : Reference := ⟨"index.docker.io", "library/nginx", "latest"⟩

/-- Test context value. -/
def ctx0 : Ctx := ⟨7⟩

/-- Test options value with all auto-login flags on. -/
def optsAll : ProviderOptions := ⟨true, true, true⟩

/-- Test manager holding only the test ECR client. -/
def mEcrOnly : Manager := ⟨some testEcrClient, none, none⟩

/-- Test manager holding only the test GCR client. -/
def mGcrOnly : Manager := ⟨none, some testGcrClient, none⟩

/-- Test manager holding only the test ACR client. -/
def mAcrOnly : Manager := ⟨none, none, some testAcrClient⟩

/-! Claim theorems. -/

/-- C1: if the image parses as an AWS ECR registry identifier, `Classify`
(`ImageRegistryProvider`) returns AWS for every reference, regardless of
what the reference's registry host would otherwise match: the AWS check
is evaluated first. -/
theorem classify_aws_first (image : String) (ref : Reference)
    (h : aws.ParseImageOk image = true) :
    ImageRegistryProvider image ref = Provider.aws := by
  simp [ImageRegistryProvider, h]

/-- Witness for C1: the spec's ECR example image classifies as AWS even
against a reference whose registry host matches the Azure pattern. -/
theorem classify_aws_first_witness :
    ImageRegistryProvider awsImg ⟨"other.azurecr.io", "r", "t"⟩ = Provider.aws :=
  classify_aws_first awsImg ⟨"other.azurecr.io", "r", "t"⟩ (by decide)

/-- C2: `ImageRegistryProvider` is total — every pair yields exactly one
of the four tags, with no error — and it yields Generic exactly when the
image does not parse as AWS ECR and the registry host matches neither
the GCP nor the Azure pattern. -/
theorem classify_total_and_generic_iff (image : String) (ref : Reference) :
    (ImageRegistryProvider image ref = Provider.aws ∨
     ImageRegistryProvider image ref = Provider.gcp ∨
     ImageRegistryProvider image ref = Provider.azure ∨
     ImageRegistryProvider image ref = Provider.generic) ∧
    (ImageRegistryProvider image ref = Provider.generic ↔
      aws.ParseImageOk image = false ∧
      gcp.ValidHost ref.RegistryStr = false ∧
      azure.ValidHost ref.RegistryStr = false) := by
  constructor
  · cases h : ImageRegistryProvider image ref <;> simp
  · unfold ImageRegistryProvider
    by_cases h1 : aws.ParseImageOk image <;>
      by_cases h2 : gcp.ValidHost ref.RegistryStr <;>
        by_cases h3 : azure.ValidHost ref.RegistryStr <;>
          simp [h1, h2, h3]

/-- C6: when the image does not parse as AWS ECR and the reference's
registry host matches the GCP host suffix set, `ImageRegistryProvider`
returns GCP. -/
theorem classify_gcp (image : String) (ref : Reference)
    (h1 : aws.ParseImageOk image = false)
    (h2 : gcp.ValidHost ref.RegistryStr = true) :
    ImageRegistryProvider image ref = Provider.gcp := by
  simp [ImageRegistryProvider, h1, h2]

/-- Witness for C6: the spec's GCR example classifies as GCP. -/
theorem classify_gcp_witness :
    ImageRegistryProvider gcpImg gcpRef = Provider.gcp :=
  classify_gcp gcpImg gcpRef (by decide) (by decide)

/-- C7: when the image does not parse as AWS ECR and the registry host
matches the Azure suffix but not the GCP suffix set,
`ImageRegistryProvider` returns Azure. -/
theorem classify_azure (image : String) (ref : Reference)
    (h1 : aws.ParseImageOk image = false)
    (h2 : gcp.ValidHost ref.RegistryStr = false)
    (h3 : azure.ValidHost ref.RegistryStr = true) :
    ImageRegistryProvider image ref = Provider.azure := by
  simp [ImageRegistryProvider, h1, h2, h3]

/-- Witness for C7: the spec's ACR example classifies as Azure. -/
theorem classify_azure_witness :
    ImageRegistryProvider azImg azRef = Provider.azure :=
  classify_azure azImg azRef (by decide) (by decide) (by decide)

/-- C9: the classifier depends only on the image string and the
reference's registry host: two references with equal
`Context().RegistryStr()` classify identically, whatever their
repository and tag/digest components. -/
theorem classify_registry_only (image : String) (r1 r2 : Reference)
    (h : r1.RegistryStr = r2.RegistryStr) :
    ImageRegistryProvider image r1 = ImageRegistryProvider image r2 := by
  simp [ImageRegistryProvider, h]

/-- Witness for C9: two references sharing a registry host but differing
in repository and tag classify identically. -/
theorem classify_registry_only_witness :
    ImageRegistryProvider genImg ⟨"gcr.io", "a/b", "v1"⟩ =
      ImageRegistryProvider genImg ⟨"gcr.io", "c/d", "v2"⟩ :=
  classify_registry_only genImg ⟨"gcr.io", "a/b", "v1"⟩ ⟨"gcr.io", "c/d", "v2"⟩ rfl

/-- C3: for every input classified as Generic, `Manager.Login` completes
with no authenticator and no error, for every state of the three client
handles and every options value — in particular the result never depends
on any client, so no client login routine is invoked. -/
theorem login_generic_noop (m : Manager) (ctx : Ctx) (image : String)
    (ref : Reference) (opts : ProviderOptions)
    (h : ImageRegistryProvider image ref = Provider.generic) :
    m.Login ctx image ref opts = some (none, none) := by
  simp [Manager.Login, h]

/-- Witness for C3: the spec's docker.io example returns (nil, nil) on a
manager holding only the test ECR client. -/
theorem login_generic_noop_witness :
    mEcrOnly.Login ctx0 genImg genRef optsAll = some (none, none) :=
  login_generic_noop mEcrOnly ctx0 genImg genRef optsAll (by decide)

/-- C4: for every input classified as AWS with a set ECR handle,
`Manager.Login` returns exactly the ECR client's result on
(ctx, options.AwsAutoLogin, image), unchanged; the result is moreover
independent of the GCR and ACR handles, so those clients are not
invoked. -/
theorem login_aws_dispatch (m : Manager) (c : aws.Client) (ctx : Ctx)
    (image : String) (ref : Reference) (opts : ProviderOptions)
    (h : ImageRegistryProvider image ref = Provider.aws)
    (hc : m.ecr = some c) :
    m.Login ctx image ref opts = some (c.login ctx opts.AwsAutoLogin image) ∧
    ∀ g a, (Manager.mk m.ecr g a).Login ctx image ref opts =
      m.Login ctx image ref opts := by
  refine ⟨by simp [Manager.Login, h, hc], ?_⟩
  intro g a
  simp [Manager.Login, h, hc]

/-- Witness for C4: on the spec's ECR example the manager returns the
test ECR client's recorded result, unchanged. -/
theorem login_aws_dispatch_witness :
    mEcrOnly.Login ctx0 awsImg awsRef optsAll =
      some (testEcrClient.login ctx0 true awsImg) :=
  (login_aws_dispatch mEcrOnly testEcrClient ctx0 awsImg awsRef optsAll
    (by decide) rfl).1

/-- C5: for inputs classified as GCP, `Manager.Login` returns exactly the
GCR client's result on (ctx, options.GcpAutoLogin, image, reference); for
inputs classified as Azure, exactly the ACR client's result on
(ctx, options.AzureAutoLogin, image, reference); each result is returned
verbatim and is independent of the other two client handles. -/
theorem login_gcp_azure_dispatch (m : Manager) (ctx : Ctx) (image : String)
    (ref : Reference) (opts : ProviderOptions) :
    (∀ c, ImageRegistryProvider image ref = Provider.gcp → m.gcr = some c →
      m.Login ctx image ref opts =
        some (c.login ctx opts.GcpAutoLogin image ref) ∧
      ∀ e a, (Manager.mk e m.gcr a).Login ctx image ref opts =
        m.Login ctx image ref opts) ∧
    (∀ c, ImageRegistryProvider image ref = Provider.azure → m.acr = some c →
      m.Login ctx image ref opts =
        some (c.login ctx opts.AzureAutoLogin image ref) ∧
      ∀ e g, (Manager.mk e g m.acr).Login ctx image ref opts =
        m.Login ctx image ref opts) := by
  constructor
  · intro c h hc
    refine ⟨by simp [Manager.Login, h, hc], ?_⟩
    intro e a
    simp [Manager.Login, h, hc]
  · intro c h hc
    refine ⟨by simp [Manager.Login, h, hc], ?_⟩
    intro e g
    simp [Manager.Login, h, hc]

/-- Witness for C5: the spec's GCR and ACR examples return the respective
test clients' recorded results, unchanged. -/
theorem login_gcp_azure_dispatch_witness :
    mGcrOnly.Login ctx0 gcpImg gcpRef optsAll =
      some (testGcrClient.login ctx0 true gcpImg gcpRef) ∧
    mAcrOnly.Login ctx0 azImg azRef optsAll =
      some (testAcrClient.login ctx0 true azImg azRef) :=
  ⟨((login_gcp_azure_dispatch mGcrOnly ctx0 gcpImg gcpRef optsAll).1
      testGcrClient (by decide) rfl).1,
   ((login_gcp_azure_dispatch mAcrOnly ctx0 azImg azRef optsAll).2
      testAcrClient (by decide) rfl).1⟩

/-- C8: each override setter replaces only its own client handle, leaves
the other two handles unchanged, and returns the updated Manager for
fluent chaining; a subsequent `Login` dispatching to that provider uses
exactly the newly installed handle. -/
theorem with_client_setters (m : Manager) (ce : Option aws.Client)
    (cg : Option gcp.Client) (ca : Option azure.Client) :
    ((m.WithECRClient ce).ecr = ce ∧ (m.WithECRClient ce).gcr = m.gcr ∧
      (m.WithECRClient ce).acr = m.acr) ∧
    ((m.WithGCRClient cg).gcr = cg ∧ (m.WithGCRClient cg).ecr = m.ecr ∧
      (m.WithGCRClient cg).acr = m.acr) ∧
    ((m.WithACRClient ca).acr = ca ∧ (m.WithACRClient ca).ecr = m.ecr ∧
      (m.WithACRClient ca).gcr = m.gcr) ∧
    (∀ ctx image ref opts c, ce = some c →
      ImageRegistryProvider image ref = Provider.aws →
      (m.WithECRClient ce).Login ctx image ref opts =
        some (c.login ctx opts.AwsAutoLogin image)) ∧
    (∀ ctx image ref opts c, cg = some c →
      ImageRegistryProvider image ref = Provider.gcp →
      (m.WithGCRClient cg).Login ctx image ref opts =
        some (c.login ctx opts.GcpAutoLogin image ref)) ∧
    (∀ ctx image ref opts c, ca = some c →
      ImageRegistryProvider image ref = Provider.azure →
      (m.WithACRClient ca).Login ctx image ref opts =
        some (c.login ctx opts.AzureAutoLogin image ref)) := by
  refine ⟨⟨rfl, rfl, rfl⟩, ⟨rfl, rfl, rfl⟩, ⟨rfl, rfl, rfl⟩, ?_, ?_, ?_⟩
  · intro ctx image ref opts c hc h
    simp [Manager.Login, Manager.WithECRClient, h, hc]
  · intro ctx image ref opts c hc h
    simp [Manager.Login, Manager.WithGCRClient, h, hc]
  · intro ctx image ref opts c hc h
    simp [Manager.Login, Manager.WithACRClient, h, hc]

/-- Witness for C8: overriding the ECR handle of a manager built with a
different client makes the next AWS-classified `Login` use exactly the
new handle. -/
theorem with_client_setters_witness :
    (mGcrOnly.WithECRClient (some testEcrClient)).Login ctx0 awsImg awsRef
      optsAll = some (testEcrClient.login ctx0 true awsImg) :=
  (with_client_setters mGcrOnly (some testEcrClient) none none).2.2.2.1
    ctx0 awsImg awsRef optsAll testEcrClient rfl (by decide)

/-- C10: `NewManager` wires all three client handles with non-nil default
clients, and consequently `Login` on a freshly constructed Manager never
dereferences a nil handle — it completes for every classification. -/
theorem newManager_handles_set :
    NewManager.ecr.isSome = true ∧ NewManager.gcr.isSome = true ∧
    NewManager.acr.isSome = true ∧
    ∀ ctx image ref opts,
      (NewManager.Login ctx image ref opts).isSome = true := by
  refine ⟨rfl, rfl, rfl, ?_⟩
  intro ctx image ref opts
  unfold Manager.Login
  cases h : ImageRegistryProvider image ref <;> simp [NewManager]
